import Mathlib

/-!
Shallow embedding of `runtime/lib/ffi_dynamic_library.cc` (Dart SDK FFI
dynamic-library resolution), the non-simulator branch of the file.

Pointers are modelled as natural numbers, with `0` playing the role of the
null pointer (`nullptr`).  The Windows-only OS surface used by
`LookupSymbolInProcess` (`CoTaskMemAlloc`, `OpenProcess`,
`EnumProcessModules`, `GetProcAddress`) is a record of oracles, and the
mutable global `co_task_mem_allocated` is threaded through the functions as
explicit state.  The two platform families the source distinguishes with
preprocessor conditionals (`DART_HOST_OS_WINDOWS` versus the dlfcn
platforms) become a `Platform` parameter.
-/

namespace FfiDynamicLibrary

/-- Machine pointers; `0` is the null pointer. -/
abbrev Ptr := Nat

/-- The null pointer `nullptr`. -/
def nullPtr : Ptr := 0

/-- The two platform families the preprocessor conditionals of the source
distinguish: `windows` (`DART_HOST_OS_WINDOWS`) and `posix` (the dlfcn
platforms: Linux, macOS, Android, Fuchsia). -/
inductive Platform where
  | windows
  | posix
deriving DecidableEq

/-- The Windows OS surface consumed by `LookupSymbolInProcess`:
`coTaskMemAlloc` is the pointer `CoTaskMemAlloc` returns, `openProcessOk`
is whether `OpenProcess` returns a handle, `enumOk` is whether
`EnumProcessModules` returns nonzero, `modules` is the snapshot of module
handles it wrote in enumeration order, and `getProcAddress` is the
per-module symbol lookup (`0` meaning the symbol is absent). -/
structure WinOS where
  coTaskMemAlloc : Ptr
  openProcessOk : Bool
  enumOk : Bool
  modules : List Ptr
  getProcAddress : Ptr → String → Ptr

/-- The ambient runtime environment of the translation unit.

The fields `utilsLoad` and `utilsResolve` stand for
`Utils::LoadDynamicLibrary` and `Utils::ResolveSymbolInDynamicLibrary`,
which live in `runtime/platform/utils` outside this file.  Modelled from
the spec: each such platform utility either succeeds with a pointer or
fails with an owned error message, never both, which the `Except` type
encodes.  `registry` collapses `Library::LookupLibrary` followed by
`Library::ffi_native_resolver()`: `none` when the library does not exist
or has no resolver installed.  `rtldDefault` is the platform value of
`RTLD_DEFAULT` on the dlfcn platforms. -/
structure Env where
  platform : Platform
  rtldDefault : Ptr
  utilsLoad : Option String → Except String Ptr
  utilsResolve : Ptr → String → Except String Ptr
  registry : String → Option (String → Nat → Ptr)
  win : WinOS

/-- Modelled from the spec: `Utils::ResolveSymbolInDynamicLibrary` (not in
this file) yields a non-null pointer on success. -/
def Env.WFResolve (e : Env) : Prop :=
  ∀ h s p, e.utilsResolve h s = Except.ok p → p ≠ nullPtr

/-- Modelled from the spec: `Utils::LoadDynamicLibrary` (not in this file)
yields a non-null handle on success. -/
def Env.WFLoad (e : Env) : Prop :=
  ∀ f h, e.utilsLoad f = Except.ok h → h ≠ nullPtr

/-- On Windows, nullptr signals trying a lookup in all loaded modules
(`kWindowsDynamicLibraryProcessPtr = nullptr`). -/
def kWindowsDynamicLibraryProcessPtr : Ptr := nullPtr

/-- The message `"Failed to load dynamic library '%s': %s"` with the file
name (or `"<process>"` when the path was null) and the utils error. -/
def loadErrorMsg (library_file : Option String) (utils_error : String) : String :=
  "Failed to load dynamic library \x27" ++
    (match library_file with
     | some f => f
     | none => "<process>") ++ "\x27: " ++ utils_error

/-- The message `"Failed to open current process."`. -/
def openProcessErrorMsg : String :=
  "Failed to open current process."

/-- The message `"None of the loaded modules contained the requested symbol
'%s'."`. -/
def notFoundInModulesMsg (symbol : String) : String :=
  "None of the loaded modules contained the requested symbol \x27" ++
    symbol ++ "\x27."

/-- The message `"Couldn't resolve function: '%s'"`. -/
def cannotResolveFunctionMsg (symbol : String) : String :=
  "Couldn\x27t resolve function: \x27" ++ symbol ++ "\x27"

/-- Embedding of the static `LoadDynamicLibrary` wrapper.  Its C++ `error`
out-parameter defaults to null; `error_provided` records whether the caller
passed one.  When the utility fails, the wrapper formats the message only
if an out-parameter was provided (and the utility's failure yields a null
handle, per the spec-modelled `utilsLoad`). -/
def LoadDynamicLibrary (e : Env) (library_file : Option String)
    (error_provided : Bool) : Ptr × Option String :=
  match e.utilsLoad library_file with
  | Except.ok handle => (handle, none)
  | Except.error utils_error =>
      if error_provided then (nullPtr, some (loadErrorMsg library_file utils_error))
      else (nullPtr, none)

/-- Embedding of `LookupSymbolInProcess` (Windows only).  The first
component of the result is the new value of the global
`co_task_mem_allocated` (the incoming value is `st`); the second is the
returned pointer; the third is the error out-parameter. -/
def LookupSymbolInProcess (w : WinOS) (st : Ptr) (symbol : String) :
    Ptr × Ptr × Option String :=
  let st1 := if st = nullPtr then w.coTaskMemAlloc else st
  if w.openProcessOk = false then
    (st1, nullPtr, some openProcessErrorMsg)
  else
    match (if w.enumOk then
             w.modules.find? (fun m => w.getProcAddress m symbol != nullPtr)
           else none) with
    | some m => (st1, w.getProcAddress m symbol, none)
    | none => (st1, nullPtr, some (notFoundInModulesMsg symbol))

/-- Embedding of the static `ResolveSymbol`: on Windows a null handle is
routed to `LookupSymbolInProcess`; otherwise the platform utility resolves
in the given library. -/
def ResolveSymbol (e : Env) (st : Ptr) (handle : Ptr) (symbol : String) :
    Ptr × Ptr × Option String :=
  if e.platform = Platform.windows ∧ handle = kWindowsDynamicLibraryProcessPtr then
    LookupSymbolInProcess e.win st symbol
  else
    match e.utilsResolve handle symbol with
    | Except.ok p => (st, p, none)
    | Except.error err => (st, nullPtr, some err)

/-- Embedding of the static `SymbolExists`: probes the same path as
`ResolveSymbol`, frees any error (errors are values here, so freeing is
simply not returning them) and reports only presence or absence. -/
def SymbolExists (e : Env) (st : Ptr) (handle : Ptr) (symbol : String) :
    Ptr × Bool :=
  if e.platform = Platform.windows then
    if handle = nullPtr then
      match LookupSymbolInProcess e.win st symbol with
      | (st1, _, error) => (st1, error.isNone)
    else
      match e.utilsResolve handle symbol with
      | Except.ok _ => (st, true)
      | Except.error _ => (st, false)
  else
    match e.utilsResolve handle symbol with
    | Except.ok _ => (st, true)
    | Except.error _ => (st, false)

/-- Embedding of the native entry `Ffi_dl_open`: load with an error
out-parameter provided, throw the message as an `ArgumentError` on
failure, otherwise box the handle. -/
def Ffi_dl_open (e : Env) (lib_path : String) : Except String Ptr :=
  match LoadDynamicLibrary e (some lib_path) true with
  | (handle, none) => Except.ok handle
  | (_, some error) => Except.error error

/-- Embedding of the native entry `Ffi_dl_processLibrary`: `RTLD_DEFAULT`
on the dlfcn platforms, `kWindowsDynamicLibraryProcessPtr` on Windows. -/
def Ffi_dl_processLibrary (e : Env) : Ptr :=
  match e.platform with
  | Platform.posix => e.rtldDefault
  | Platform.windows => kWindowsDynamicLibraryProcessPtr

/-- Embedding of the native entry `Ffi_dl_executableLibrary`: calls
`LoadDynamicLibrary(nullptr)` with the error out-parameter left at its
null default, and boxes whatever handle comes back. -/
def Ffi_dl_executableLibrary (e : Env) : Ptr :=
  (LoadDynamicLibrary e none false).1

/-- Embedding of the native entry `Ffi_dl_lookup`: resolve, and on error
throw `"Failed to lookup symbol '%s': %s"`. -/
def Ffi_dl_lookup (e : Env) (st : Ptr) (handle : Ptr) (symbol : String) :
    Ptr × Except String Ptr :=
  match ResolveSymbol e st handle symbol with
  | (st1, pointer, none) => (st1, Except.ok pointer)
  | (st1, _, some error) =>
      (st1, Except.error
        ("Failed to lookup symbol \x27" ++ symbol ++ "\x27: " ++ error))

/-- Embedding of the native entry `Ffi_dl_getHandle`: the stored handle
reinterpreted through `intptr_t` and handed to `Integer::NewFromUint64`,
that is, its value as an unsigned 64-bit integer. -/
def Ffi_dl_getHandle (handle : Ptr) : Nat :=
  handle % (2 ^ 64)

/-- Embedding of the native entry `Ffi_dl_providesSymbol`. -/
def Ffi_dl_providesSymbol (e : Env) (st : Ptr) (handle : Ptr)
    (symbol : String) : Ptr × Bool :=
  SymbolExists e st handle symbol

/-- Embedding of the static `GetFfiNativeResolver`: `none` if no native
resolver is installed (the library does not exist, or it has none). -/
def GetFfiNativeResolver (e : Env) (lib_url_str : String) :
    Option (String → Nat → Ptr) :=
  e.registry lib_url_str

/-- Embedding of the static `FfiResolveWithFfiNativeResolver`: invoke the
resolver with `(symbol, args_n)`; a null result populates the error
`"Couldn't resolve function: '%s'"`. -/
def FfiResolveWithFfiNativeResolver (resolver : String → Nat → Ptr)
    (symbol : String) (args_n : Nat) : Ptr × Option String :=
  let result := resolver symbol args_n
  if result = nullPtr then (result, some (cannotResolveFunctionMsg symbol))
  else (result, none)

/-- Embedding of the static `ThrowFfiResolveError`: the thrown message
`"Couldn't resolve native function '%s' in '%s' : %s.\n"`. -/
def ThrowFfiResolveError (symbol : String) (asset : String)
    (error : String) : String :=
  "Couldn\x27t resolve native function \x27" ++ symbol ++ "\x27 in \x27" ++
    asset ++ "\x27 : " ++ error ++ ".\n"

/-- Embedding of the static `FfiResolve`, the FFI native C function pointer
resolver: ask the native resolver registry first; absent a registration,
resolve in the current process (the dlfcn utility at `RTLD_DEFAULT`, or
`LookupSymbolInProcess` on Windows).  A thrown `ArgumentError` is the
`Except.error` case. -/
def FfiResolve (e : Env) (st : Ptr) (asset : String) (symbol : String)
    (args_n : Nat) : Ptr × Except String Ptr :=
  match GetFfiNativeResolver e asset with
  | some resolver =>
      match FfiResolveWithFfiNativeResolver resolver symbol args_n with
      | (_, some error) =>
          (st, Except.error (ThrowFfiResolveError symbol asset error))
      | (ffi_native_result, none) => (st, Except.ok ffi_native_result)
  | none =>
      match (if e.platform = Platform.windows then
               LookupSymbolInProcess e.win st symbol
             else
               match e.utilsResolve e.rtldDefault symbol with
               | Except.ok p => (st, p, none)
               | Except.error err => (st, nullPtr, some err)) with
      | (st1, _, some error) =>
          (st1, Except.error (ThrowFfiResolveError symbol asset error))
      | (st1, result, none) => (st1, Except.ok result)

/-! Helper lemmas shared by the claim theorems. -/

/-- The state component of `LookupSymbolInProcess`: the one-time
`CoTaskMemAlloc` warm-up runs exactly when the guard is null. -/
theorem LookupSymbolInProcess_fst (w : WinOS) (st : Ptr) (symbol : String) :
    (LookupSymbolInProcess w st symbol).1 =
      if st = nullPtr then w.coTaskMemAlloc else st := by
  cases hop : w.openProcessOk with
  | false => simp [LookupSymbolInProcess, hop]
  | true =>
    cases hen : w.enumOk with
    | false => simp [LookupSymbolInProcess, hop, hen]
    | true =>
      cases hfind : w.modules.find? (fun m => w.getProcAddress m symbol != nullPtr) with
      | none => simp [LookupSymbolInProcess, hop, hen, hfind]
      | some m => simp [LookupSymbolInProcess, hop, hen, hfind]

/-- In `LookupSymbolInProcess`, no error means the returned pointer is a
non-null module hit, and an error means the returned pointer is null. -/
theorem LookupSymbolInProcess_ok_iff (w : WinOS) (st : Ptr) (symbol : String) :
    ((LookupSymbolInProcess w st symbol).2.2 = none →
      (LookupSymbolInProcess w st symbol).2.1 ≠ nullPtr) ∧
    ((LookupSymbolInProcess w st symbol).2.2 ≠ none →
      (LookupSymbolInProcess w st symbol).2.1 = nullPtr) := by
  cases hop : w.openProcessOk with
  | false => simp [LookupSymbolInProcess, hop]
  | true =>
    cases hen : w.enumOk with
    | false => simp [LookupSymbolInProcess, hop, hen]
    | true =>
      cases hfind : w.modules.find? (fun m => w.getProcAddress m symbol != nullPtr) with
      | none => simp [LookupSymbolInProcess, hop, hen, hfind]
      | some m =>
        have hp : w.getProcAddress m symbol ≠ nullPtr := by
          simpa using List.find?_some hfind
        simp [LookupSymbolInProcess, hop, hen, hfind, hp]

/-- A `find?` over a list returns the first element satisfying the
predicate: splitting the list at that element characterizes the result. -/
theorem find?_first {α : Type} (p : α → Bool) (l1 l2 : List α) (m : α)
    (h1 : ∀ x ∈ l1, p x = false) (hm : p m = true) :
    (l1 ++ m :: l2).find? p = some m := by
  induction l1 with
  | nil => simp [List.find?, hm]
  | cons a t ih =>
      have ha : p a = false := h1 a (by simp)
      have ht : ∀ x ∈ t, p x = false := fun x hx => h1 x (by simp [hx])
      simpa [List.find?, ha] using ih ht

/-! Concrete environments used by the witness theorems. -/

/-- A concrete Windows OS surface: two modules, the second exporting
symbol `"f"` at address 42. -/
def sampleWin : WinOS :=
  { coTaskMemAlloc := 7
    openProcessOk := true
    enumOk := true
    modules := [10, 20]
    getProcAddress := fun m s => if m = 20 ∧ s = "f" then 42 else 0 }

/-- A concrete per-asset resolver: resolves `"f"` with declared arity 2 to
address 77 and nothing else. -/
def sampleResolver : String → Nat → Ptr :=
  fun s n => if s = "f" ∧ n = 2 then 77 else 0

/-- A concrete Windows environment whose loads succeed at handle 5, whose
per-handle resolution succeeds only at that handle for symbol `"f"`, and
whose registry maps asset `"asset1"` to `sampleResolver`. -/
def okEnv : Env :=
  { platform := Platform.windows
    rtldDefault := 0
    utilsLoad := fun _ => Except.ok 5
    utilsResolve := fun h s =>
      if h = 5 ∧ s = "f" then Except.ok 99 else Except.error "symbol missing"
    registry := fun a => if a = "asset1" then some sampleResolver else none
    win := sampleWin }

/-- A concrete posix environment in which every load and every resolution
fails. -/
def errEnv : Env :=
  { platform := Platform.posix
    rtldDefault := 3
    utilsLoad := fun _ => Except.error "no such file"
    utilsResolve := fun _ _ => Except.error "symbol missing"
    registry := fun _ => none
    win := sampleWin }

/-- C4: no resolution or load operation (`LoadDynamicLibrary`,
`ResolveSymbol`, `LookupSymbolInProcess`) ever yields a non-null
pointer/handle together with a non-null error: whenever the error
out-parameter is set the returned pointer is null, and whenever the
returned pointer is non-null the error out-parameter is left null. -/
theorem c4_never_pointer_and_error (e : Env) (st : Ptr) (handle : Ptr)
    (symbol : String) (file : Option String) (ep : Bool) :
    ((LoadDynamicLibrary e file ep).2 ≠ none →
      (LoadDynamicLibrary e file ep).1 = nullPtr) ∧
    ((LoadDynamicLibrary e file ep).1 ≠ nullPtr →
      (LoadDynamicLibrary e file ep).2 = none) ∧
    ((ResolveSymbol e st handle symbol).2.2 ≠ none →
      (ResolveSymbol e st handle symbol).2.1 = nullPtr) ∧
    ((ResolveSymbol e st handle symbol).2.1 ≠ nullPtr →
      (ResolveSymbol e st handle symbol).2.2 = none) ∧
    ((LookupSymbolInProcess e.win st symbol).2.2 ≠ none →
      (LookupSymbolInProcess e.win st symbol).2.1 = nullPtr) ∧
    ((LookupSymbolInProcess e.win st symbol).2.1 ≠ nullPtr →
      (LookupSymbolInProcess e.win st symbol).2.2 = none) := by
  have hlk := LookupSymbolInProcess_ok_iff e.win st symbol
  have hlk1 : (LookupSymbolInProcess e.win st symbol).2.2 ≠ none →
      (LookupSymbolInProcess e.win st symbol).2.1 = nullPtr := hlk.2
  have hlk2 : (LookupSymbolInProcess e.win st symbol).2.1 ≠ nullPtr →
      (LookupSymbolInProcess e.win st symbol).2.2 = none := by
    intro h
    by_cases he : (LookupSymbolInProcess e.win st symbol).2.2 = none
    · exact he
    · exact absurd (hlk.2 he) h
  have hload : ((LoadDynamicLibrary e file ep).2 ≠ none →
      (LoadDynamicLibrary e file ep).1 = nullPtr) ∧
      ((LoadDynamicLibrary e file ep).1 ≠ nullPtr →
        (LoadDynamicLibrary e file ep).2 = none) := by
    cases hl : e.utilsLoad file with
    | ok h => simp [LoadDynamicLibrary, hl]
    | error u => cases ep <;> simp [LoadDynamicLibrary, hl]
  have hres : ((ResolveSymbol e st handle symbol).2.2 ≠ none →
      (ResolveSymbol e st handle symbol).2.1 = nullPtr) ∧
      ((ResolveSymbol e st handle symbol).2.1 ≠ nullPtr →
        (ResolveSymbol e st handle symbol).2.2 = none) := by
    by_cases hc : e.platform = Platform.windows ∧
        handle = kWindowsDynamicLibraryProcessPtr
    · have heq : ResolveSymbol e st handle symbol =
          LookupSymbolInProcess e.win st symbol := by
        unfold ResolveSymbol
        rw [if_pos hc]
      rw [heq]
      have hok := LookupSymbolInProcess_ok_iff e.win st symbol
      refine ⟨hok.2, ?_⟩
      intro h
      by_cases he : (LookupSymbolInProcess e.win st symbol).2.2 = none
      · exact he
      · exact absurd (hok.2 he) h
    · have heq : ResolveSymbol e st handle symbol =
          (match e.utilsResolve handle symbol with
           | Except.ok p => (st, p, none)
           | Except.error err => (st, nullPtr, some err)) := by
        unfold ResolveSymbol
        rw [if_neg hc]
      rw [heq]
      cases hu : e.utilsResolve handle symbol with
      | ok p => simp [hu]
      | error u => simp [hu]
  exact ⟨hload.1, hload.2, hres.1, hres.2, hlk1, hlk2⟩

/-- Witness for C4 at a concrete environment: a failed load sets the error
and returns a null handle, and a successful per-handle resolution returns a
non-null pointer with a null error. -/
theorem c4_witness :
    (LoadDynamicLibrary errEnv (some "nope") true).2 ≠ none ∧
    (LoadDynamicLibrary errEnv (some "nope") true).1 = nullPtr ∧
    (ResolveSymbol okEnv 0 5 "f").2.1 ≠ nullPtr ∧
    (ResolveSymbol okEnv 0 5 "f").2.2 = none := by
  have h1 := (c4_never_pointer_and_error errEnv 0 5 "f" (some "nope") true).1
  have h2 := (c4_never_pointer_and_error okEnv 0 5 "f" (some "nope") true).2.2.2.1
  refine ⟨by decide, h1 (by decide), by decide, h2 (by decide)⟩

/-- C5: on Windows (the platform lacking a native process-wide search
primitive), `ResolveSymbol` applied to the whole-process sentinel
delegates to `LookupSymbolInProcess`, never consults the native per-handle
lookup (the outcome is unchanged under any replacement of it), and the
sentinel is distinct from every handle a successful load can return. -/
theorem c5_sentinel_delegates_to_scanner (e : Env) (st : Ptr)
    (symbol : String) (hw : e.platform = Platform.windows)
    (hload : e.WFLoad) :
    ResolveSymbol e st kWindowsDynamicLibraryProcessPtr symbol =
      LookupSymbolInProcess e.win st symbol ∧
    (∀ ur : Ptr → String → Except String Ptr,
      ResolveSymbol { e with utilsResolve := ur } st
          kWindowsDynamicLibraryProcessPtr symbol =
        LookupSymbolInProcess e.win st symbol) ∧
    (∀ f h, e.utilsLoad f = Except.ok h →
      h ≠ kWindowsDynamicLibraryProcessPtr) := by
  refine ⟨?_, ?_, ?_⟩
  · unfold ResolveSymbol
    rw [if_pos ⟨hw, rfl⟩]
  · intro ur
    unfold ResolveSymbol
    rw [if_pos ⟨hw, rfl⟩]
  · intro f h hfh
    exact hload f h hfh

/-- Witness for C5 at a concrete Windows environment. -/
theorem c5_witness :
    okEnv.platform = Platform.windows ∧ okEnv.WFLoad ∧
    ResolveSymbol okEnv 0 kWindowsDynamicLibraryProcessPtr "f" =
      LookupSymbolInProcess okEnv.win 0 "f" := by
  have hwf : okEnv.WFLoad := by
    intro f h hfh
    have h5 : (5 : Ptr) = h := by simpa [okEnv] using hfh
    simp [← h5, nullPtr]
  exact ⟨rfl, hwf, (c5_sentinel_delegates_to_scanner okEnv 0 "f" rfl hwf).1⟩

/-- C8: the one-time `CoTaskMemAlloc` warm-up guard of the Process-Wide
Scanner is idempotent and monotone: running the scanner again from the
state it produced leaves that state unchanged, and once the guard is
non-null it is never modified (every later scan skips initialization). -/
theorem c8_init_idempotent_monotone (w : WinOS) (st : Ptr)
    (s1 s2 : String) :
    (LookupSymbolInProcess w (LookupSymbolInProcess w st s1).1 s2).1 =
      (LookupSymbolInProcess w st s1).1 ∧
    (st ≠ nullPtr → (LookupSymbolInProcess w st s1).1 = st) := by
  constructor
  · rw [LookupSymbolInProcess_fst, LookupSymbolInProcess_fst]
    by_cases h : st = nullPtr
    · by_cases h2 : w.coTaskMemAlloc = nullPtr
      · simp [h, h2]
      · simp [h, h2]
    · simp [h]
  · intro h
    rw [LookupSymbolInProcess_fst]
    simp [h]

/-- Witness for C8 at a concrete initialized state. -/
theorem c8_witness :
    (1 : Ptr) ≠ nullPtr ∧ (LookupSymbolInProcess sampleWin 1 "f").1 = 1 :=
  ⟨by decide, (c8_init_idempotent_monotone sampleWin 1 "f" "g").2 (by decide)⟩

/-- C10: `Ffi_dl_getHandle` returns the stored handle's numeric value as
an unsigned 64-bit integer with no transformation, and on Windows — whose
whole-process sentinel is the null pointer — the process library's handle
is reported as 0. -/
theorem c10_getHandle_identity (e : Env) (handle : Ptr)
    (hlt : handle < 2 ^ 64) :
    Ffi_dl_getHandle handle = handle ∧
    (e.platform = Platform.windows →
      Ffi_dl_getHandle (Ffi_dl_processLibrary e) = 0) := by
  constructor
  · exact Nat.mod_eq_of_lt hlt
  · intro hw
    simp [Ffi_dl_processLibrary, hw, Ffi_dl_getHandle,
      kWindowsDynamicLibraryProcessPtr, nullPtr]

/-- Witness for C10 at handle 5 in the concrete Windows environment. -/
theorem c10_witness :
    (5 : Ptr) < 2 ^ 64 ∧ Ffi_dl_getHandle 5 = 5 ∧
    Ffi_dl_getHandle (Ffi_dl_processLibrary okEnv) = 0 := by
  have h := c10_getHandle_identity okEnv 5 (by norm_num)
  exact ⟨by norm_num, h.1, h.2 rfl⟩

/-- C1: with a registered native resolver for the asset, `FfiResolve`
invokes it with `(symbol, args_n)` and returns exactly the non-null
pointer it produced; a null return fails with the error naming both the
symbol and the asset; and resolution never falls through to process-wide
search: the outcome is the same in every environment registering the same
resolver for the asset, whatever its process-wide symbols. -/
theorem c1_registered_resolver_owns_resolution (e : Env) (st : Ptr)
    (asset symbol : String) (args_n : Nat) (r : String → Nat → Ptr)
    (hreg : e.registry asset = some r) :
    (r symbol args_n ≠ nullPtr →
      FfiResolve e st asset symbol args_n =
        (st, Except.ok (r symbol args_n))) ∧
    (r symbol args_n = nullPtr →
      FfiResolve e st asset symbol args_n =
        (st, Except.error (ThrowFfiResolveError symbol asset
          (cannotResolveFunctionMsg symbol)))) ∧
    (∀ (e2 : Env) (st2 : Ptr), e2.registry asset = some r →
      (FfiResolve e2 st2 asset symbol args_n).2 =
        (FfiResolve e st asset symbol args_n).2) := by
  have key : ∀ (e3 : Env) (st3 : Ptr), e3.registry asset = some r →
      FfiResolve e3 st3 asset symbol args_n =
        (st3, if r symbol args_n = nullPtr then
          Except.error (ThrowFfiResolveError symbol asset
            (cannotResolveFunctionMsg symbol))
        else Except.ok (r symbol args_n)) := by
    intro e3 st3 h3
    unfold FfiResolve GetFfiNativeResolver
    rw [h3]
    by_cases hr : r symbol args_n = nullPtr
    · simp [FfiResolveWithFfiNativeResolver, hr]
    · simp [FfiResolveWithFfiNativeResolver, hr]
  refine ⟨?_, ?_, ?_⟩
  · intro h
    rw [key e st hreg, if_neg h]
  · intro h
    rw [key e st hreg, if_pos h]
  · intro e2 st2 h2
    rw [key e2 st2 h2, key e st hreg]

/-- Witness for C1: the concrete registered resolver resolves `"f"` with
arity 2 to 77, and for arity 3 it returns null and `FfiResolve` fails. -/
theorem c1_witness :
    okEnv.registry "asset1" = some sampleResolver ∧
    FfiResolve okEnv 0 "asset1" "f" 2 = (0, Except.ok 77) ∧
    FfiResolve okEnv 0 "asset1" "f" 3 =
      (0, Except.error (ThrowFfiResolveError "f" "asset1"
        (cannotResolveFunctionMsg "f"))) := by
  have h := c1_registered_resolver_owns_resolution okEnv 0 "asset1" "f" 2
    sampleResolver rfl
  have h3 := c1_registered_resolver_owns_resolution okEnv 0 "asset1" "f" 3
    sampleResolver rfl
  exact ⟨rfl, h.1 (by decide), h3.2.1 (by decide)⟩

/-- C2: with no registered resolver for the asset, `FfiResolve` behaves
as `resolve(processWideHandle(), symbol)`: the scanner state agrees, a
successful resolution returns the very pointer the process-wide resolution
produces, and it fails exactly when the process-wide resolution fails. -/
theorem c2_unregistered_matches_process_wide (e : Env) (st : Ptr)
    (asset symbol : String) (args_n : Nat)
    (hreg : e.registry asset = none) :
    (FfiResolve e st asset symbol args_n).1 =
      (ResolveSymbol e st (Ffi_dl_processLibrary e) symbol).1 ∧
    ((ResolveSymbol e st (Ffi_dl_processLibrary e) symbol).2.2 = none →
      (FfiResolve e st asset symbol args_n).2 =
        Except.ok ((ResolveSymbol e st (Ffi_dl_processLibrary e) symbol).2.1)) ∧
    (∀ err,
      (ResolveSymbol e st (Ffi_dl_processLibrary e) symbol).2.2 = some err →
      (FfiResolve e st asset symbol args_n).2 =
        Except.error (ThrowFfiResolveError symbol asset err)) := by
  have hps : (if e.platform = Platform.windows then
        LookupSymbolInProcess e.win st symbol
      else
        match e.utilsResolve e.rtldDefault symbol with
        | Except.ok p => (st, p, none)
        | Except.error err => (st, nullPtr, some err)) =
      ResolveSymbol e st (Ffi_dl_processLibrary e) symbol := by
    cases hp : e.platform with
    | windows =>
        simp [ResolveSymbol, Ffi_dl_processLibrary, hp,
          kWindowsDynamicLibraryProcessPtr]
    | posix =>
        simp [ResolveSymbol, Ffi_dl_processLibrary, hp]
  have hunf : FfiResolve e st asset symbol args_n =
      (match ResolveSymbol e st (Ffi_dl_processLibrary e) symbol with
       | (st1, _, some error) =>
           (st1, Except.error (ThrowFfiResolveError symbol asset error))
       | (st1, result, none) => (st1, Except.ok result)) := by
    unfold FfiResolve GetFfiNativeResolver
    rw [hreg, hps]
  rcases hR : ResolveSymbol e st (Ffi_dl_processLibrary e) symbol
    with ⟨st1, p, err⟩
  rw [hR] at hunf
  cases err with
  | none => simp [hunf, hR]
  | some er => simp [hunf, hR]

/-- Witness for C2: asset `"other"` has no registration; on the concrete
Windows environment both paths go through the process scanner and agree. -/
theorem c2_witness :
    okEnv.registry "other" = none ∧
    (FfiResolve okEnv 0 "other" "f" 1).1 =
      (ResolveSymbol okEnv 0 (Ffi_dl_processLibrary okEnv) "f").1 ∧
    (FfiResolve okEnv 0 "other" "f" 1).2 =
      Except.ok ((ResolveSymbol okEnv 0 (Ffi_dl_processLibrary okEnv) "f").2.1) := by
  have h := c2_unregistered_matches_process_wide okEnv 0 "other" "f" 1 rfl
  exact ⟨rfl, h.1, h.2.1 (by decide)⟩

/-- C3: `SymbolExists` answers true exactly when `ResolveSymbol` on the
same handle and symbol would succeed with a non-null pointer and a null
error; the error an unsuccessful probe produces is discarded inside
`SymbolExists` (its result carries no error), never propagated. -/
theorem c3_exists_iff_resolve_succeeds (e : Env) (st : Ptr) (handle : Ptr)
    (symbol : String) (hwf : e.WFResolve) :
    (SymbolExists e st handle symbol).2 = true ↔
      ((ResolveSymbol e st handle symbol).2.1 ≠ nullPtr ∧
       (ResolveSymbol e st handle symbol).2.2 = none) := by
  cases hp : e.platform with
  | windows =>
    by_cases hh : handle = nullPtr
    · subst hh
      have hok := LookupSymbolInProcess_ok_iff e.win st symbol
      have hE : SymbolExists e st nullPtr symbol =
          ((LookupSymbolInProcess e.win st symbol).1,
           (LookupSymbolInProcess e.win st symbol).2.2.isNone) := by
        rcases hL : LookupSymbolInProcess e.win st symbol with ⟨st1, p2, er⟩
        simp [SymbolExists, hp, hL]
      have hS : ResolveSymbol e st nullPtr symbol =
          LookupSymbolInProcess e.win st symbol := by
        unfold ResolveSymbol
        rw [if_pos ⟨hp, rfl⟩]
      rw [hE, hS]
      cases her : (LookupSymbolInProcess e.win st symbol).2.2 with
      | none => simp [her, hok.1 her]
      | some er => simp [her]
    · have hE : SymbolExists e st handle symbol =
          (match e.utilsResolve handle symbol with
           | Except.ok _ => (st, true)
           | Except.error _ => (st, false)) := by
        simp [SymbolExists, hp, hh]
      have hS : ResolveSymbol e st handle symbol =
          (match e.utilsResolve handle symbol with
           | Except.ok p => (st, p, none)
           | Except.error err => (st, nullPtr, some err)) := by
        unfold ResolveSymbol
        rw [if_neg]
        intro hc
        exact hh hc.2
      rw [hE, hS]
      cases hu : e.utilsResolve handle symbol with
      | ok p => simp [hwf handle symbol p hu]
      | error u => simp
  | posix =>
    have hE : SymbolExists e st handle symbol =
        (match e.utilsResolve handle symbol with
         | Except.ok _ => (st, true)
         | Except.error _ => (st, false)) := by
      simp [SymbolExists, hp]
    have hS : ResolveSymbol e st handle symbol =
        (match e.utilsResolve handle symbol with
         | Except.ok p => (st, p, none)
         | Except.error err => (st, nullPtr, some err)) := by
      unfold ResolveSymbol
      rw [if_neg]
      intro hc
      rw [hp] at hc
      exact absurd hc.1 (by simp)
    rw [hE, hS]
    cases hu : e.utilsResolve handle symbol with
    | ok p => simp [hwf handle symbol p hu]
    | error u => simp

/-- Witness for C3 in the concrete Windows environment: the per-handle
probe at handle 5 for symbol `"f"` exists and resolves non-null. -/
theorem c3_witness :
    okEnv.WFResolve ∧
    ((SymbolExists okEnv 0 5 "f").2 = true ↔
      ((ResolveSymbol okEnv 0 5 "f").2.1 ≠ nullPtr ∧
       (ResolveSymbol okEnv 0 5 "f").2.2 = none)) := by
  have hwf : okEnv.WFResolve := by
    intro h s p hu
    simp only [okEnv] at hu
    by_cases hc : h = 5 ∧ s = "f"
    · rw [if_pos hc] at hu
      have : (99 : Ptr) = p := by simpa using hu
      simp [← this, nullPtr]
    · rw [if_neg hc] at hu
      exact absurd hu (by simp)
  exact ⟨hwf, c3_exists_iff_resolve_succeeds okEnv 0 5 "f" hwf⟩

/-- C6: with the process handle acquired and module enumeration
succeeding, the scanner probes the snapshotted modules in enumeration
order and returns the first non-null hit with no error; if no module
exports the symbol it returns a null pointer and the error naming the
symbol and stating that no loaded module contained it. -/
theorem c6_scanner_first_hit_in_order (w : WinOS) (st : Ptr)
    (symbol : String) (hop : w.openProcessOk = true)
    (hen : w.enumOk = true) :
    (∀ (l1 l2 : List Ptr) (m : Ptr), w.modules = l1 ++ m :: l2 →
      (∀ x ∈ l1, w.getProcAddress x symbol = nullPtr) →
      w.getProcAddress m symbol ≠ nullPtr →
      (LookupSymbolInProcess w st symbol).2 =
        (w.getProcAddress m symbol, none)) ∧
    ((∀ x ∈ w.modules, w.getProcAddress x symbol = nullPtr) →
      (LookupSymbolInProcess w st symbol).2 =
        (nullPtr, some (notFoundInModulesMsg symbol))) := by
  constructor
  · intro l1 l2 m hsplit h1 hm
    have hfind : w.modules.find?
        (fun x => w.getProcAddress x symbol != nullPtr) = some m := by
      rw [hsplit]
      apply find?_first
      · intro x hx
        simp [h1 x hx]
      · simpa using hm
    simp [LookupSymbolInProcess, hop, hen, hfind]
  · intro habs
    have hfind : w.modules.find?
        (fun x => w.getProcAddress x symbol != nullPtr) = none := by
      rw [List.find?_eq_none]
      intro x hx
      simp [habs x hx]
    simp [LookupSymbolInProcess, hop, hen, hfind]

/-- Witness for C6 on the concrete module list `[10, 20]`: module 10 lacks
`"f"`, module 20 exports it at 42, and the scanner returns 42. -/
theorem c6_witness :
    sampleWin.modules = [10] ++ 20 :: [] ∧
    (∀ x ∈ [(10 : Ptr)], sampleWin.getProcAddress x "f" = nullPtr) ∧
    sampleWin.getProcAddress 20 "f" ≠ nullPtr ∧
    (LookupSymbolInProcess sampleWin 0 "f").2 =
      (sampleWin.getProcAddress 20 "f", none) := by
  have h := (c6_scanner_first_hit_in_order sampleWin 0 "f" rfl rfl).1
    [10] [] 20 rfl (by decide) (by decide)
  exact ⟨rfl, by decide, by decide, h⟩

/-- C9: when the process handle is acquired but module enumeration itself
fails, the scanner returns null with the same
`"None of the loaded modules contained the requested symbol"` error it
uses for a genuinely absent symbol — the two outcomes are identical — and
the distinct `"Failed to open current process."` error appears exactly
when acquiring the current-process handle fails. -/
theorem c9_enum_failure_indistinguishable (w w2 : WinOS) (st st2 : Ptr)
    (symbol : String) (hop : w.openProcessOk = true)
    (hen : w.enumOk = false) (hop2 : w2.openProcessOk = true)
    (hen2 : w2.enumOk = true)
    (habs : ∀ m ∈ w2.modules, w2.getProcAddress m symbol = nullPtr) :
    (LookupSymbolInProcess w st symbol).2 =
      (nullPtr, some (notFoundInModulesMsg symbol)) ∧
    (LookupSymbolInProcess w st symbol).2 =
      (LookupSymbolInProcess w2 st2 symbol).2 ∧
    (∀ (w3 : WinOS) (st3 : Ptr) (s3 : String),
      (LookupSymbolInProcess w3 st3 s3).2.2 = some openProcessErrorMsg ↔
        w3.openProcessOk = false) := by
  have hmsg : ∀ s3 : String, notFoundInModulesMsg s3 ≠ openProcessErrorMsg := by
    intro s3 hcontra
    have hlen := congrArg String.length hcontra
    rw [notFoundInModulesMsg, openProcessErrorMsg, String.length_append,
      String.length_append] at hlen
    have hA : 31 <
        ("None of the loaded modules contained the requested symbol \x27" :
          String).length := by decide
    have hC : ("Failed to open current process." : String).length = 31 := by
      decide
    omega
  have henum : (LookupSymbolInProcess w st symbol).2 =
      (nullPtr, some (notFoundInModulesMsg symbol)) := by
    simp [LookupSymbolInProcess, hop, hen]
  have habs2 : (LookupSymbolInProcess w2 st2 symbol).2 =
      (nullPtr, some (notFoundInModulesMsg symbol)) := by
    have hfind : w2.modules.find?
        (fun x => w2.getProcAddress x symbol != nullPtr) = none := by
      rw [List.find?_eq_none]
      intro x hx
      simp [habs x hx]
    simp [LookupSymbolInProcess, hop2, hen2, hfind]
  refine ⟨henum, by rw [henum, habs2], ?_⟩
  intro w3 st3 s3
  cases hop3 : w3.openProcessOk with
  | false =>
      simp [LookupSymbolInProcess, hop3]
  | true =>
      cases hen3 : w3.enumOk with
      | false => simp [LookupSymbolInProcess, hop3, hen3, hmsg s3]
      | true =>
          cases hfind : w3.modules.find?
              (fun x => w3.getProcAddress x s3 != nullPtr) with
          | none => simp [LookupSymbolInProcess, hop3, hen3, hfind, hmsg s3]
          | some m => simp [LookupSymbolInProcess, hop3, hen3, hfind]

/-- Witness for C9: a concrete scanner whose enumeration fails produces
the very output of the concrete scanner that scans and finds nothing. -/
theorem c9_witness :
    (LookupSymbolInProcess { sampleWin with enumOk := false } 0 "g").2 =
      (nullPtr, some (notFoundInModulesMsg "g")) ∧
    (LookupSymbolInProcess { sampleWin with enumOk := false } 0 "g").2 =
      (LookupSymbolInProcess sampleWin 0 "g").2 := by
  have h := c9_enum_failure_indistinguishable
    { sampleWin with enumOk := false } sampleWin 0 0 "g" rfl rfl rfl rfl
    (by decide)
  exact ⟨h.1, h.2.1⟩

/-- C7 counterexample: in a concrete environment where loading the main
executable fails, the `Ffi_dl_executableLibrary` entry — the `path = none`
request — calls `LoadDynamicLibrary` without an error out-parameter, so
the failed open yields a null handle with NO error at all, contradicting
the claim that every failed open yields a non-null error. -/
theorem c7_counterexample_executable_silent :
    errEnv.utilsLoad none = Except.error "no such file" ∧
    LoadDynamicLibrary errEnv none false = (nullPtr, none) ∧
    Ffi_dl_executableLibrary errEnv = nullPtr :=
  ⟨rfl, rfl, rfl⟩

/-- C7 (amended): every failed open through `LoadDynamicLibrary` with an
error out-parameter supplied (as `Ffi_dl_open` supplies one) yields a null
handle and a non-null error that embeds the OS diagnostic and, when a path
was given, includes that path in its text; the `path = none` request made
by `Ffi_dl_executableLibrary` supplies no error out-parameter, so its
failure yields a null handle with no error message. -/
theorem c7_amended_failed_open (e : Env) (file : Option String)
    (diag : String) (h : e.utilsLoad file = Except.error diag) :
    LoadDynamicLibrary e file true = (nullPtr, some (loadErrorMsg file diag)) ∧
    (∀ p, file = some p → ∃ a b, loadErrorMsg file diag = a ++ p ++ b) ∧
    (∃ a b, loadErrorMsg file diag = a ++ diag ++ b) ∧
    LoadDynamicLibrary e file false = (nullPtr, none) ∧
    Ffi_dl_executableLibrary
      { e with utilsLoad := fun _ => Except.error diag } = nullPtr := by
  refine ⟨?_, ?_, ?_, ?_, ?_⟩
  · simp [LoadDynamicLibrary, h]
  · intro p hp
    subst hp
    refine ⟨"Failed to load dynamic library \x27", "\x27: " ++ diag, ?_⟩
    simp [loadErrorMsg, String.append_assoc]
  · refine ⟨"Failed to load dynamic library \x27" ++
      (match file with
       | some f => f
       | none => "<process>") ++ "\x27: ", "", ?_⟩
    cases file <;> simp [loadErrorMsg, String.append_assoc]
  · simp [LoadDynamicLibrary, h]
  · rfl

/-- Witness for the amended C7 at a concrete failing load. -/
theorem c7_witness :
    errEnv.utilsLoad (some "libmissing.so") = Except.error "no such file" ∧
    LoadDynamicLibrary errEnv (some "libmissing.so") true =
      (nullPtr, some (loadErrorMsg (some "libmissing.so") "no such file")) :=
  ⟨rfl,
    (c7_amended_failed_open errEnv (some "libmissing.so") "no such file"
      rfl).1⟩

end FfiDynamicLibrary
